import Mathlib

/-!
Verification development for the sqlmapper core: a shallow embedding of
`sqlmapper/core/command_builder.py` (CommandBuilder) and
`sqlmapper/core/subprocess_runner.py` (SubprocessRunner output parsing),
together with proofs of the behavioural claims about them.

Machine strings are modelled as Lean `String`, Python dictionaries with
optional keys as structures of `Option` fields, and the Python standard
library helpers used by the code (`shlex.split`, `shlex.quote`, `str.strip`,
`str.split`, `' '.join`) as executable Lean functions mirroring CPython.
-/

/-- The single-quote character, written via its code point. -/
def squote : Char := Char.ofNat 39

/-- The double-quote character. -/
def dquote : Char := '"'

/-- The backslash character. -/
def bslash : Char := '\\'

/-- Lexer modes of CPython `shlex` in POSIX mode with `whitespace_split`:
blank state, word state, inside single quotes, inside double quotes,
escape seen in word context, escape seen inside double quotes. -/
inductive LMode
  | sp
  | wd
  | sq
  | dq
  | escA
  | escQ
deriving DecidableEq

/-- Prepend the finished token to a successful lexer result. -/
def emitTok (tok : List Char) (r : Option (List String)) : Option (List String) :=
  match r with
  | some ts => some (String.mk tok :: ts)
  | none => none

/-- CPython `shlex.read_token` iterated to the end of input, in POSIX mode
with `whitespace_split = True`, no comment characters and no punctuation
characters (exactly the configuration produced by `shlex.split`).
`none` models the `ValueError` raised on an unterminated quote or a
trailing escape character. -/
def shlexRun : LMode → List Char → Bool → List Char → Option (List String)
  | .sp, tok, q, [] => if tok.isEmpty && !q then some [] else some [String.mk tok]
  | .sp, tok, q, c :: rest =>
    if c.isWhitespace then
      if !tok.isEmpty || q then emitTok tok (shlexRun .sp [] false rest)
      else shlexRun .sp [] false rest
    else if c == squote then shlexRun .sq tok q rest
    else if c == dquote then shlexRun .dq tok q rest
    else if c == bslash then shlexRun .escA tok q rest
    else shlexRun .wd [c] q rest
  | .wd, tok, q, [] => if tok.isEmpty && !q then some [] else some [String.mk tok]
  | .wd, tok, q, c :: rest =>
    if c.isWhitespace then
      if !tok.isEmpty || q then emitTok tok (shlexRun .sp [] false rest)
      else shlexRun .sp [] false rest
    else if c == squote then shlexRun .sq tok q rest
    else if c == dquote then shlexRun .dq tok q rest
    else if c == bslash then shlexRun .escA tok q rest
    else shlexRun .wd (tok ++ [c]) q rest
  | .sq, _tok, _q, [] => none
  | .sq, tok, _q, c :: rest =>
    if c == squote then shlexRun .wd tok true rest
    else shlexRun .sq (tok ++ [c]) true rest
  | .dq, _tok, _q, [] => none
  | .dq, tok, _q, c :: rest =>
    if c == dquote then shlexRun .wd tok true rest
    else if c == bslash then shlexRun .escQ tok true rest
    else shlexRun .dq (tok ++ [c]) true rest
  | .escA, _tok, _q, [] => none
  | .escA, tok, q, c :: rest => shlexRun .wd (tok ++ [c]) q rest
  | .escQ, _tok, _q, [] => none
  | .escQ, tok, q, c :: rest =>
    if c == bslash || c == dquote then shlexRun .dq (tok ++ [c]) q rest
    else shlexRun .dq (tok ++ [bslash, c]) q rest

/-- CPython `shlex.split(s)` (POSIX mode, comments disabled);
`none` models the `ValueError` on malformed quoting. -/
def shlexSplit (s : String) : Option (List String) :=
  shlexRun .sp [] false s.data

/-- Characters the `shlex.quote` regular expression treats as safe:
ASCII alphanumerics plus underscore, at sign, percent, plus, equals,
colon, comma, dot, slash and hyphen. -/
def isSafeChar (c : Char) : Bool :=
  c.isAlphanum || c == '_' || c == '@' || c == '%' || c == '+' || c == '=' ||
    c == ':' || c == ',' || c == '.' || c == '/' || c == '-'

/-- CPython `s.replace("'", "'\"'\"'")` on the character list of `s`:
every single quote becomes quote, double quote, quote, double quote, quote. -/
def pyReplaceQuote : List Char → List Char
  | [] => []
  | c :: cs =>
    (if c == squote then [squote, dquote, squote, dquote, squote] else [c]) ++
      pyReplaceQuote cs

/-- CPython `shlex.quote`: the empty string becomes a pair of single quotes,
a fully safe string is returned unchanged, and anything else is wrapped in
single quotes with embedded single quotes escaped. -/
def shQuote (s : String) : String :=
  if s == "" then String.mk [squote, squote]
  else if s.data.all isSafeChar then s
  else String.mk (squote :: (pyReplaceQuote s.data ++ [squote]))

/-- Python `' '.join`. -/
def pyJoinSpace : List String → String
  | [] => ""
  | [x] => x
  | x :: y :: xs => x ++ " " ++ pyJoinSpace (y :: xs)

/-- Python `'\n'.join`. -/
def pyJoinNl : List String → String
  | [] => ""
  | [x] => x
  | x :: y :: xs => x ++ "\n" ++ pyJoinNl (y :: xs)

/-- Split a character list at every character satisfying `p`, keeping
empty pieces (the helper under `pySplitWs`). -/
def splitPredAux (p : Char → Bool) (acc : List Char) : List Char → List (List Char)
  | [] => [acc.reverse]
  | c :: rest =>
    if p c then acc.reverse :: splitPredAux p [] rest
    else splitPredAux p (c :: acc) rest

/-- Python `s.split()` with no argument: split on whitespace runs,
discarding empty pieces. -/
def pySplitWs (s : String) : List String :=
  ((splitPredAux Char.isWhitespace [] s.data).map String.mk).filter (fun x => !(x == ""))

/-- Python `s.strip()` with no argument: remove leading and trailing
whitespace. -/
def pyStripWs (s : String) : String :=
  String.mk (((s.data.dropWhile Char.isWhitespace).reverse.dropWhile Char.isWhitespace).reverse)

/-- Python `s.startswith(p)`. -/
def pyStartsWith (s p : String) : Bool :=
  p.data.isPrefixOf s.data

/-- Python `s.endswith(p)`. -/
def pyEndsWith (s p : String) : Bool :=
  p.data.reverse.isPrefixOf s.data.reverse

/-- Python `s.lower()` (ASCII case folding). -/
def pyLower (s : String) : String :=
  String.mk (s.data.map Char.toLower)

/-- Helper for `pySplitOn`: scans the character list, cutting at each
leftmost non-overlapping occurrence of `sep`; `fuel` bounds the recursion
and is chosen large enough never to run out. -/
def pySplitOnAux (sep : List Char) : Nat → List Char → List Char → List (List Char)
  | 0, acc, _ => [acc.reverse]
  | _ + 1, acc, [] => [acc.reverse]
  | fuel + 1, acc, c :: rest =>
    if sep.isPrefixOf (c :: rest) then
      acc.reverse :: pySplitOnAux sep fuel [] ((c :: rest).drop sep.length)
    else
      pySplitOnAux sep fuel (c :: acc) rest

/-- Python `s.split(sep)` for a non-empty separator: pieces between
leftmost non-overlapping occurrences of `sep`, empties kept. -/
def pySplitOn (s sep : String) : List String :=
  (pySplitOnAux sep.data (s.data.length + 1) [] s.data).map String.mk

/-- Python substring test `pat in s`: the characters of `pat` occur
contiguously inside the characters of `s`. -/
def hasSub (s pat : String) : Bool :=
  decide (pat.data <:+: s.data)

/-- Python `s.split(sep)[-1]` for a non-empty separator. -/
def lastSplit (s sep : String) : String :=
  (pySplitOn s sep).getLastD s

/-- Python `s.split()[0]`, defaulting to the empty string on a blank
remainder (unreachable at the call sites, which only see stripped,
non-blank lines). -/
def firstTok (s : String) : String :=
  (pySplitWs s).headD ""

/-- Python `s.strip("'\"")`: remove single and double quotes from both ends. -/
def stripQC (s : String) : String :=
  let isq := fun c => c == squote || c == dquote
  String.mk (((s.data.dropWhile isq).reverse.dropWhile isq).reverse)

example : shlexSplit "--batch" = some ["--batch"] := by decide
example : shlexSplit "a \x27b c\x27 d" = some ["a", "b c", "d"] := by decide
example : shlexSplit "\x27\x27" = some [""] := by decide
example : shlexSplit "\x27oops" = none := by decide
example : shQuote "ab" = "ab" := by decide
example : stripQC "\x27shop\x27" = "shop" := by decide

/-!
Embedding of `sqlmapper/core/command_builder.py`.

A `Target` models the target dictionary (absent key = `none`), an
`Options` models the options dictionary. The builder's state is the
resolved sqlmap path together with the PyInstaller-frozen flag and the
value of `sys.executable`, all of which `find_sqlmap` and `sys` provide
at run time; they are parameters of the embedding.
-/

structure Target where
  url : Option String := none
  request_file : Option String := none
  data : Option String := none
  cookies : Option String := none
  headers : Option String := none
  random_user_agent : Bool := false
deriving DecidableEq

structure Options where
  risk_level : Option Int := none
  level : Option Int := none
  threads : Option Int := none
  timeout : Option Int := none
  retries : Option Int := none
  techniques : Option (List String) := none
  dbms : Option String := none
  detection : Option (List String) := none
  proxy : Option String := none
  tor : Bool := false
  tor_port : Option Int := none
  delay : Option Int := none
  skip_url_encode : Bool := false
  skip_static : Bool := false
  tamper : Option String := none
  os : Option String := none
  batch : Bool := false
  skip_waf : Bool := false
  fresh_queries : Bool := false
  custom_args : Option String := none
deriving DecidableEq

structure CommandBuilder where
  frozen : Bool
  sys_executable : String
  sqlmap_path : String
deriving DecidableEq

/-- The executable invocation head of `build_command`: a Python script is
run through an interpreter (the bundled one when frozen), anything else
is invoked directly. -/
def execInvocation (cb : CommandBuilder) : List String :=
  if pyEndsWith cb.sqlmap_path ".py" then
    if cb.frozen then [cb.sys_executable, cb.sqlmap_path]
    else ["python", cb.sqlmap_path]
  else [cb.sqlmap_path]

/-- `CommandBuilder._build_target_args`. -/
def build_target_args (t : Target) : List String :=
  (match t.url with | some u => ["-u", u] | none => []) ++
  (match t.request_file with | some r => ["-r", r] | none => []) ++
  (match t.data with | some d => ["--data", d] | none => []) ++
  (match t.cookies with | some c => ["--cookie", c] | none => []) ++
  (match t.headers with | some h => ["--headers", h] | none => []) ++
  (if t.random_user_agent then ["--random-agent"] else [])

/-- The detection-option flag table of `_build_option_args`. -/
def detection_map : List (String × String) :=
  [("banner", "--banner"), ("current_user", "--current-user"),
   ("current_db", "--current-db"), ("hostname", "--hostname"),
   ("is_dba", "--is-dba"), ("users", "--users"),
   ("passwords", "--passwords"), ("privileges", "--privileges"),
   ("roles", "--roles"), ("dbs", "--dbs"), ("tables", "--tables"),
   ("columns", "--columns"), ("schema", "--schema")]

/-- The option arguments built by `_build_option_args` before the forced
batch-mode check (risk through fresh-queries, in source order). -/
def option_args_pre (o : Options) : List String :=
  (match o.risk_level with | some r => ["--risk", toString r] | none => []) ++
  (match o.level with | some v => ["--level", toString v] | none => []) ++
  (match o.threads with | some v => ["--threads", toString v] | none => []) ++
  (match o.timeout with | some v => ["--timeout", toString v] | none => []) ++
  (match o.retries with | some v => ["--retries", toString v] | none => []) ++
  (match o.techniques with
   | some ts => if ts.isEmpty then [] else ["--technique", String.join ts]
   | none => []) ++
  (match o.dbms with | some d => ["--dbms", d] | none => []) ++
  (match o.detection with
   | some ds => ds.filterMap (fun d => detection_map.lookup d)
   | none => []) ++
  (match o.proxy with | some p => ["--proxy", p] | none => []) ++
  (if o.tor then
     ["--tor"] ++ (match o.tor_port with | some p => ["--tor-port", toString p] | none => [])
   else []) ++
  (match o.delay with
   | some d => if d > 0 then ["--delay", toString d] else []
   | none => []) ++
  (if o.skip_url_encode then ["--skip-url-encode"] else []) ++
  (if o.skip_static then ["--skip-static"] else []) ++
  (match o.tamper with | some tm => ["--tamper", tm] | none => []) ++
  (match o.os with | some s => ["--os", s] | none => []) ++
  (if o.batch then ["--batch"] else []) ++
  (if o.skip_waf then ["--skip-waf"] else []) ++
  (if o.fresh_queries then ["--fresh-queries"] else [])

/-- The forced batch-mode argument: appended when no argument built so far
contains the substring `--batch`. -/
def forced_batch (pre : List String) : List String :=
  if pre.any (fun a => hasSub a "--batch") then [] else ["--batch"]

/-- The tokens of the raw custom-argument string: stripped, then split with
`shlex.split`, falling back to naive whitespace splitting when shlex
raises on malformed quoting. -/
def custom_tokens (o : Options) : List String :=
  match o.custom_args with
  | none => []
  | some s =>
    let st := pyStripWs s
    if st == "" then []
    else
      match shlexSplit st with
      | some l => l
      | none => pySplitWs st

/-- `CommandBuilder._build_option_args`. -/
def build_option_args (o : Options) : List String :=
  option_args_pre o ++ forced_batch (option_args_pre o) ++ custom_tokens o

/-- `CommandBuilder.build_command`. -/
def build_command (cb : CommandBuilder) (t : Target) (o : Options) : List String :=
  execInvocation cb ++ build_target_args t ++ build_option_args o

/-- `CommandBuilder.get_command_string`: shell-quote every argument and
join with single spaces. -/
def get_command_string (cb : CommandBuilder) (t : Target) (o : Options) : String :=
  pyJoinSpace ((build_command cb t o).map shQuote)

/-- `CommandBuilder.validate_target`; `isfile` models `os.path.isfile`. -/
def validate_target (isfile : String → Bool) (t : Target) : List String :=
  (if (t.url.getD "") == "" && (t.request_file.getD "") == "" then
     ["Either URL or request file must be specified"]
   else []) ++
  (match t.url with
   | some u =>
     if pyStartsWith u "http://" || pyStartsWith u "https://" then []
     else ["URL must start with http:// or https://"]
   | none => []) ++
  (match t.request_file with
   | some f => if isfile f then [] else ["Request file does not exist"]
   | none => [])

/-- The valid technique letters. -/
def validTechniques : List String := ["B", "E", "U", "S", "T", "Q"]

/-- One numeric validation block of `validate_options`: when the key is
present and its value falls outside `[lo, hi]`, produce the error. -/
def range_error (x : Option Int) (lo hi : Int) (msg : String) : List String :=
  match x with
  | some v => if v < lo ∨ hi < v then [msg] else []
  | none => []

/-- The technique validation block of `validate_options`: one error per
technique letter outside the valid alphabet, in list order. -/
def technique_errors (x : Option (List String)) : List String :=
  match x with
  | some ts =>
    ts.filterMap (fun tq =>
      if validTechniques.contains tq then none
      else some ("Invalid technique: " ++ tq))
  | none => []

/-- `CommandBuilder.validate_options` (the model's numeric fields are
integers, so the `isinstance` guards always pass). -/
def validate_options (o : Options) : List String :=
  range_error o.risk_level 1 3 "Risk level must be between 1 and 3" ++
  range_error o.level 1 5 "Level must be between 1 and 5" ++
  range_error o.threads 1 10 "Threads must be between 1 and 10" ++
  range_error o.timeout 1 300 "Timeout must be between 1 and 300 seconds" ++
  technique_errors o.techniques

/-- An absent numeric option, or one inside `[lo, hi]`. -/
def optInRange (x : Option Int) (lo hi : Int) : Bool :=
  match x with
  | none => true
  | some v => decide (lo ≤ v ∧ v ≤ hi)

/-- An absent technique list, or one whose letters are all valid. -/
def techsOk (x : Option (List String)) : Bool :=
  match x with
  | none => true
  | some ts => ts.all (fun tq => validTechniques.contains tq)

example :
    build_command { frozen := false, sys_executable := "py", sqlmap_path := "sqlmap" }
      { url := some "http://x.com" } { risk_level := some 2, batch := true } =
      ["sqlmap", "-u", "http://x.com", "--risk", "2", "--batch"] := by decide

example : pySplitOn "[INFO] the back-end DBMS is MySQL" "is " =
  ["[INFO] the back-end DBMS ", "MySQL"] := by decide
example : lastSplit "[PAYLOAD] Parameter: id (GET) x" "Parameter: " = "id (GET) x" := by decide
example : firstTok "id (GET) x" = "id" := by decide

/-!
Embedding of the output interpreter
(`SubprocessRunner._parse_results` / `_parse_sqlmap_output`).

The mutable loop over output lines becomes a fold of `processLine` over
the line list, carrying the section tag, the result fields updated inside
the loop, and the local accumulators (`target_url`, `vulnerabilities`,
`database_info`). End-of-stream finalisation (`finalizeResult`) applies
the command-argument target fallback and rebuilds the summary. The
`timestamp` field (wall-clock time) is outside the embedding.
-/

structure Vuln where
  parameter : String
  type : String
  title : String
  payload : String
deriving DecidableEq

structure DBInfo where
  dbms : Option String := none
  banner : Option String := none
  current_user : Option String := none
  version : Option String := none
  databases : List (String × List String) := []
deriving DecidableEq

/-- Python `db_name in database_info['databases']`. -/
def dbHas (dbs : List (String × List String)) (name : String) : Bool :=
  dbs.any (fun p => p.fst == name)

/-- Create the entry for `name` with an empty table list when missing. -/
def ensureDb (dbs : List (String × List String)) (name : String) :
    List (String × List String) :=
  if dbHas dbs name then dbs else dbs ++ [(name, [])]

/-- Append `tbl` to the table list of `name` when not already present. -/
def addTable (dbs : List (String × List String)) (name tbl : String) :
    List (String × List String) :=
  dbs.map (fun p =>
    if p.fst == name then
      (p.fst, if p.snd.contains tbl then p.snd else p.snd ++ [tbl])
    else p)

/-- The parser state carried through the line loop: the section tag, the
result fields mutated inside the loop, and the loop-local accumulators. -/
structure PState where
  current_section : Option String := none
  target : String := "Unknown"
  dbms : String := "Unknown"
  vulnerable : Bool := false
  summary : String := "Scan completed successfully"
  target_url : Option String := none
  vulnerabilities : List Vuln := []
  database_info : DBInfo := {}
deriving DecidableEq

/-- The initial parser state (from the result template in `_parse_results`). -/
def initState : PState := {}

/-- Python `line[line.find(quote) + 1 : line.rfind(quote)]` guarded by
`start > 0 and end > start`: the text strictly between the first and the
last single quote, provided that span is non-empty. -/
def quoteExtract (l : String) : Option String :=
  let cs := l.data
  match cs.findIdx? (fun c => c == squote) with
  | none => none
  | some i =>
    let j := cs.length - 1 - ((cs.reverse.findIdx? (fun c => c == squote)).getD 0)
    if i + 1 < j then some (String.mk ((cs.drop (i + 1)).take (j - (i + 1))))
    else none

/-- Python `line.split('retrieved: ')[-1].strip()`. -/
def extractRetrieved (l : String) : String :=
  pyStripWs (lastSplit l "retrieved: ")

/-- One iteration of the parsing loop of `_parse_sqlmap_output`: strip the
line, skip it when blank, otherwise run the `elif` chain in source order. -/
def processLine (st : PState) (rawLine : String) : PState :=
  let l := pyStripWs rawLine
  if l == "" then st
  else if hasSub l "[*] testing connection to the target URL" then
    match quoteExtract l with
    | some v => { st with target_url := some v, target := v }
    | none => st
  else if hasSub l "[*] starting at" && hasSub l "[*] ending at" then
    match st.target_url with
    | some u => { st with target := u }
    | none => st
  else if hasSub l "[INFO] testing URL" then
    match quoteExtract l with
    | some v => { st with target := v }
    | none => st
  else if hasSub l "[INFO] testing connection to the target URL" then
    match quoteExtract l with
    | some v => { st with target := v }
    | none => st
  else if hasSub l "[INFO] the back-end DBMS is" then
    let d := pyStripWs (lastSplit l "is ")
    { st with dbms := d, database_info := { st.database_info with dbms := some d } }
  else if hasSub l "[INFO] banner:" then
    { st with database_info :=
        { st.database_info with banner := some (pyStripWs (lastSplit l "banner: ")) } }
  else if hasSub l "[CRITICAL] sqlmap identified the following injection point(s):" then
    { st with vulnerable := true, current_section := some "vulnerability" }
  else if hasSub l "[CRITICAL] all tested parameters appear to be not injectable" then
    { st with vulnerable := false, current_section := some "not_vulnerable" }
  else if hasSub l "[INFO] sqlmap identified the following injection point(s):" then
    { st with vulnerable := true, current_section := some "vulnerability" }
  else if hasSub l "[PAYLOAD]" && (st.current_section == some "vulnerability") then
    if hasSub l "Parameter:" then
      { st with vulnerabilities := st.vulnerabilities ++
          [{ parameter := firstTok (lastSplit l "Parameter: "),
             type := "Unknown", title := "SQL Injection", payload := l }] }
    else st
  else if hasSub l "[INFO] testing for SQL injection on" then
    if hasSub l "Parameter:" then { st with vulnerable := true } else st
  else if hasSub l "[INFO] testing" && hasSub (pyLower l) "injection" then
    st
  else if hasSub l "[INFO] fetching database names" then
    { st with current_section := some "databases" }
  else if hasSub l "[INFO] fetching tables for database:" then
    let dbn := stripQC (lastSplit l "database: ")
    { st with database_info :=
        { st.database_info with databases := ensureDb st.database_info.databases dbn } }
  else if hasSub l "[INFO] fetching columns for table" then
    if hasSub l "table " && hasSub l "database" then
      let tinfo := lastSplit l "table "
      if hasSub tinfo " in database" then
        let tname := stripQC ((pySplitOn tinfo " in database").headD tinfo)
        let dbn := stripQC (lastSplit tinfo "database ")
        { st with database_info :=
            { st.database_info with
                databases := addTable (ensureDb st.database_info.databases dbn) dbn tname } }
      else st
    else st
  else if hasSub l "[INFO] fetching current user" then
    { st with current_section := some "user_info" }
  else if hasSub l "[INFO] retrieved:" && (st.current_section == some "user_info") then
    { st with database_info :=
        { st.database_info with current_user := some (extractRetrieved l) } }
  else if hasSub l "[INFO] fetching database server version" then
    { st with current_section := some "version_info" }
  else if hasSub l "[INFO] retrieved:" && (st.current_section == some "version_info") then
    { st with database_info :=
        { st.database_info with version := some (extractRetrieved l) } }
  else if hasSub l "[INFO] retrieved:" then
    if st.vulnerable then st else { st with vulnerable := true }
  else if hasSub l "[INFO] sqlmap identified the following injection point(s):" then
    { st with vulnerable := true, summary := "SQL injection vulnerability found" }
  else if hasSub l "[INFO] no injection point(s) found" then
    { st with vulnerable := false, summary := "No SQL injection vulnerabilities found" }
  else if hasSub l "[CRITICAL] all tested parameters appear to be not injectable" then
    { st with vulnerable := false, summary := "No SQL injection vulnerabilities found" }
  else if hasSub l "[INFO] sqlmap got a connection to the target URL" then
    { st with summary := "Successfully connected to target" }
  else if hasSub l "[INFO] confirming that the parameter" && hasSub l "is injectable" then
    { st with vulnerable := true }
  else if hasSub l "[INFO] parameter" && hasSub l "is vulnerable" then
    { st with vulnerable := true }
  else if hasSub l "[INFO] found a total of" && hasSub l "injection point(s)" then
    { st with vulnerable := true }
  else st

/-- Python `self.command.index(arg)`: index of the first occurrence. -/
def pyIndex (l : List String) (x : String) : Nat :=
  l.findIdx (fun a => a == x)

/-- The target fallback loop over the command arguments: the first
`http(s)` token wins, otherwise the token after the first `-u` flag
(when one exists). -/
def cmdFallback (full : List String) : List String → Option String
  | [] => none
  | a :: rest =>
    if pyStartsWith a "http://" || pyStartsWith a "https://" then some a
    else if a == "-u" && pyIndex full "-u" + 1 < full.length then
      some (full.getD (pyIndex full "-u" + 1) "")
    else cmdFallback full rest

structure ScanResult where
  status : String
  target : String
  dbms : String
  vulnerable : Bool
  vulnerabilities : List Vuln
  database_info : DBInfo
  summary : String
  raw_output : String
deriving DecidableEq

/-- End-of-stream finalisation of `_parse_results` / `_parse_sqlmap_output`:
command-argument target fallback, then the summary rebuilt from the final
vulnerability flag and record count. -/
def finalizeResult (cmd : List String) (lines : List String) (st : PState) : ScanResult :=
  let tgt :=
    if st.target == "Unknown" && !cmd.isEmpty then
      match cmdFallback cmd cmd with
      | some v => v
      | none => st.target
    else st.target
  let n := st.vulnerabilities.length
  let summ :=
    if st.vulnerable then
      if n > 0 then
        "Found " ++ toString n ++ " SQL injection vulnerability(ies)"
      else "SQL injection vulnerability detected"
    else "No SQL injection vulnerabilities found"
  { status := "completed", target := tgt, dbms := st.dbms,
    vulnerable := st.vulnerable, vulnerabilities := st.vulnerabilities,
    database_info := st.database_info, summary := summ,
    raw_output := pyJoinNl lines }

/-- `SubprocessRunner._parse_results` on an accumulated line list, for a
runner started with command `cmd`. -/
def parse_output (cmd : List String) (lines : List String) : ScanResult :=
  finalizeResult cmd lines (lines.foldl processLine initState)

example :
    (parse_output [] ["[INFO] the back-end DBMS is MySQL"]).dbms = "MySQL" := by decide
example :
    (parse_output [] ["[CRITICAL] all tested parameters appear to be not injectable"]).summary =
      "No SQL injection vulnerabilities found" := by decide

/-!
Claim theorems.
-/

/-- Claim C3: feeding the interpreter the critical injection-point marker
line followed by a payload line for parameter `id` yields a true
vulnerability flag and exactly one vulnerability record with parameter
`id`, type `Unknown`, title `SQL Injection`, and the full payload line as
raw evidence. -/
theorem payload_line_single_record :
    (parse_output [] ["[CRITICAL] sqlmap identified the following injection point(s):",
        "[PAYLOAD] Parameter: id (GET) ..."]).vulnerable = true ∧
    (parse_output [] ["[CRITICAL] sqlmap identified the following injection point(s):",
        "[PAYLOAD] Parameter: id (GET) ..."]).vulnerabilities =
      [{ parameter := "id", type := "Unknown", title := "SQL Injection",
         payload := "[PAYLOAD] Parameter: id (GET) ..." }] := by
  decide

/-- Claim C5: after the tables line for database `shop` and the columns
line for table `users` in `shop`, the table list of `shop` is exactly
`[users]`, and processing the same columns line a second time leaves it
unchanged. -/
theorem tables_no_duplicates :
    ((parse_output [] ["[INFO] fetching tables for database: \x27shop\x27",
        "[INFO] fetching columns for table \x27users\x27 in database \x27shop\x27"]
      ).database_info.databases).lookup "shop" = some ["users"] ∧
    ((parse_output [] ["[INFO] fetching tables for database: \x27shop\x27",
        "[INFO] fetching columns for table \x27users\x27 in database \x27shop\x27",
        "[INFO] fetching columns for table \x27users\x27 in database \x27shop\x27"]
      ).database_info.databases).lookup "shop" = some ["users"] := by
  decide

/-- Claim C6: for every command and line sequence, the final summary is a
function of the final vulnerability flag and vulnerability-record count
alone: the counted message when the flag is true with records, the generic
detected message when true without records, and the not-found message when
false. Intermediate summary assignments never survive finalisation. -/
theorem summary_determined_by_flag_and_count (cmd lines : List String) :
    (parse_output cmd lines).summary =
      (if (parse_output cmd lines).vulnerable then
        if (parse_output cmd lines).vulnerabilities.length > 0 then
          "Found " ++ toString (parse_output cmd lines).vulnerabilities.length ++
            " SQL injection vulnerability(ies)"
        else "SQL injection vulnerability detected"
      else "No SQL injection vulnerabilities found") := by
  rfl

/-- A numeric validation block produces no error when the key is absent or
the value is inside the range. -/
theorem range_error_nil (x : Option Int) (lo hi : Int) (msg : String)
    (h : optInRange x lo hi = true) : range_error x lo hi msg = [] := by
  cases x with
  | none => rfl
  | some v =>
    simp only [optInRange, decide_eq_true_eq] at h
    simp only [range_error, if_neg (by omega : ¬(v < lo ∨ hi < v))]

/-- A numeric validation block produces exactly its error when the value is
outside the range. -/
theorem range_error_single (v lo hi : Int) (msg : String)
    (h : v < lo ∨ hi < v) : range_error (some v) lo hi msg = [msg] := by
  simp only [range_error, if_pos h]

/-- The technique block produces no error when the key is absent or all
letters are valid. -/
theorem technique_errors_nil (x : Option (List String)) (h : techsOk x = true) :
    technique_errors x = [] := by
  cases x with
  | none => rfl
  | some ts =>
    simp only [techsOk, List.all_eq_true] at h
    simp only [technique_errors]
    induction ts with
    | nil => rfl
    | cons a as ih =>
      have ha := h a (by simp)
      rw [List.filterMap_cons]
      simp only [ha, if_pos rfl]
      exact ih (fun b hb => h b (by simp [hb]))

/-- Claim C7: for every Options whose present risk, level, threads and
timeout lie in their documented ranges and whose technique letters are all
valid, `validate_options` returns no errors; and replacing exactly one of
the four numeric fields by an out-of-range value (risk 0 or 4 in
particular) yields exactly the one corresponding boundary error. -/
theorem validate_options_spec (o : Options)
    (hr : optInRange o.risk_level 1 3 = true)
    (hl : optInRange o.level 1 5 = true)
    (hth : optInRange o.threads 1 10 = true)
    (hti : optInRange o.timeout 1 300 = true)
    (htech : techsOk o.techniques = true) :
    validate_options o = [] ∧
    (∀ r : Int, r < 1 ∨ 3 < r →
      validate_options { o with risk_level := some r } =
        ["Risk level must be between 1 and 3"]) ∧
    (∀ v : Int, v < 1 ∨ 5 < v →
      validate_options { o with level := some v } =
        ["Level must be between 1 and 5"]) ∧
    (∀ v : Int, v < 1 ∨ 10 < v →
      validate_options { o with threads := some v } =
        ["Threads must be between 1 and 10"]) ∧
    (∀ v : Int, v < 1 ∨ 300 < v →
      validate_options { o with timeout := some v } =
        ["Timeout must be between 1 and 300 seconds"]) := by
  refine ⟨?_, ?_, ?_, ?_, ?_⟩
  · simp only [validate_options, range_error_nil _ _ _ _ hr, range_error_nil _ _ _ _ hl,
      range_error_nil _ _ _ _ hth, range_error_nil _ _ _ _ hti,
      technique_errors_nil _ htech, List.append_nil]
  · intro r h
    simp only [validate_options, range_error_single _ _ _ _ h,
      range_error_nil _ _ _ _ hl, range_error_nil _ _ _ _ hth,
      range_error_nil _ _ _ _ hti, technique_errors_nil _ htech, List.append_nil]
  · intro v h
    simp only [validate_options, range_error_single _ _ _ _ h,
      range_error_nil _ _ _ _ hr, range_error_nil _ _ _ _ hth,
      range_error_nil _ _ _ _ hti, technique_errors_nil _ htech,
      List.append_nil, List.nil_append]
  · intro v h
    simp only [validate_options, range_error_single _ _ _ _ h,
      range_error_nil _ _ _ _ hr, range_error_nil _ _ _ _ hl,
      range_error_nil _ _ _ _ hti, technique_errors_nil _ htech,
      List.append_nil, List.nil_append]
  · intro v h
    simp only [validate_options, range_error_single _ _ _ _ h,
      range_error_nil _ _ _ _ hr, range_error_nil _ _ _ _ hl,
      range_error_nil _ _ _ _ hth, technique_errors_nil _ htech,
      List.append_nil, List.nil_append]

/-- Witness for claim C7 at a concrete valid Options value, and at the
same value with risk set to the out-of-range 0. -/
theorem validate_options_spec_witness :
    validate_options { risk_level := some 2, level := some 3, threads := some 4,
                       timeout := some 60, techniques := some ["B", "T"] } = [] ∧
    validate_options { risk_level := some 0, level := some 3, threads := some 4,
                       timeout := some 60, techniques := some ["B", "T"] } =
      ["Risk level must be between 1 and 3"] := by
  have h := validate_options_spec
    { risk_level := some 2, level := some 3, threads := some 4,
      timeout := some 60, techniques := some ["B", "T"] }
    (by decide) (by decide) (by decide) (by decide) (by decide)
  exact ⟨h.1, h.2.1 0 (by omega)⟩

/-- Claim C2 counterexample: a Target with both a well-formed URL and an
existing request file set produces no validation error, although the claim
demands at least one. -/
theorem both_url_and_request_accepted :
    validate_target (fun _ => true)
      { url := some "http://example.com/item?id=1", request_file := some "req.txt" } =
      [] := by
  decide

/-- Claim C2 (amended): `validate_target` returns an empty error list only
if at least one of URL and request-file is a non-empty value; having both
set is accepted — with a prefixed URL and an existing request file the
error list is empty. -/
theorem validate_target_spec (isfile : String → Bool) (t : Target) :
    (((t.url.getD "" == "") && (t.request_file.getD "" == "")) = true →
      validate_target isfile t ≠ []) ∧
    (∀ u f, t.url = some u → t.request_file = some f →
      (pyStartsWith u "http://" || pyStartsWith u "https://") = true →
      isfile f = true → validate_target isfile t = []) := by
  constructor
  · intro h
    simp only [validate_target, h, if_true]
    intro hk
    exact List.cons_ne_nil _ _ (List.append_eq_nil.mp
      (List.append_eq_nil.mp hk).1).1
  · intro u f hu hf hpre hex
    have hune : (u == "") = false := by
      cases hq : u == "" with
      | false => rfl
      | true =>
        have : u = "" := by simpa using hq
        subst this
        simp [pyStartsWith, List.isPrefixOf] at hpre
    simp only [validate_target, hu, hf, Option.getD_some, hune, Bool.false_and,
      Bool.false_eq_true, if_false, hpre, if_true, hex, List.append_nil,
      List.nil_append]

/-- Claim C1 counterexample: with an empty target and the raw
custom-argument string `--batch`, the built command contains the batch
token twice — the forced batch check runs before custom arguments are
appended, so it cannot deduplicate against them. -/
theorem custom_batch_token_duplicated :
    ((build_command { frozen := false, sys_executable := "python", sqlmap_path := "sqlmap" }
        {} { custom_args := some "--batch" }).count "--batch") = 2 := by
  decide

/-- Claim C1 (amended): the built command contains the `--batch` token
exactly once, provided the executable invocation, the target arguments and
the custom-argument tokens contribute no `--batch` token of their own, the
pre-custom option arguments contain the `--batch` token exactly once when
the batch flag is set and not at all otherwise, and, when the batch flag is
unset, no pre-custom option argument contains `--batch` even as a
substring. -/
theorem batch_appended_exactly_once (cb : CommandBuilder) (t : Target) (o : Options)
    (hexec : "--batch" ∉ execInvocation cb)
    (htgt : "--batch" ∉ build_target_args t)
    (hcust : "--batch" ∉ custom_tokens o)
    (hpre : (option_args_pre o).count "--batch" = (if o.batch then 1 else 0))
    (hsub : o.batch = false → ∀ a ∈ option_args_pre o, hasSub a "--batch" = false) :
    (build_command cb t o).count "--batch" = 1 := by
  have hex0 : (execInvocation cb).count "--batch" = 0 := List.count_eq_zero.mpr hexec
  have htg0 : (build_target_args t).count "--batch" = 0 := List.count_eq_zero.mpr htgt
  have hcu0 : (custom_tokens o).count "--batch" = 0 := List.count_eq_zero.mpr hcust
  unfold build_command build_option_args
  rw [List.count_append, List.count_append, List.count_append, List.count_append,
    hex0, htg0, hcu0]
  cases hb : o.batch with
  | true =>
    rw [hb, if_pos rfl] at hpre
    have hmem : "--batch" ∈ option_args_pre o := List.count_pos_iff.mp (by omega)
    have hany : (option_args_pre o).any (fun a => hasSub a "--batch") = true :=
      List.any_eq_true.mpr ⟨"--batch", hmem, by decide⟩
    simp only [forced_batch, hany, if_true, List.count_nil, hpre]
  | false =>
    rw [hb] at hpre
    simp only [if_neg (by simp : ¬(false = true))] at hpre
    have hnone : (option_args_pre o).any (fun a => hasSub a "--batch") = false :=
      List.any_eq_false.mpr (fun a ha => by simp [hsub hb a ha])
    simp only [forced_batch, hnone, if_false, hpre]
    decide

/-- Witness for claim C1 at a concrete builder, target and options with the
batch flag set. -/
theorem batch_appended_exactly_once_witness :
    (build_command { frozen := false, sys_executable := "python", sqlmap_path := "sqlmap.py" }
        { url := some "http://t.io/a?id=2" }
        { batch := true, dbms := some "MySQL" }).count "--batch" = 1 :=
  batch_appended_exactly_once _ _ _ (by decide) (by decide) (by decide) (by decide)
    (by decide)

/-- A line that does not contain `q` does not contain any string having `q`
as a substring. -/
theorem hasSub_false_mono (l p q : String) (hpq : hasSub p q = true)
    (h : hasSub l q = false) : hasSub l p = false := by
  simp only [hasSub, decide_eq_true_eq] at hpq
  simp only [hasSub, decide_eq_false_iff_not] at h ⊢
  exact fun hc => h (hpq.trans hc)

/-- Claim C4: on a retrieved-marker line that matches no earlier rule of the
classifier chain, the user-info section check takes priority (setting the
current-user field and leaving the vulnerability flag untouched), then the
version-info section check (setting the version field), and in any other
section the line sets the vulnerability flag to true. -/
theorem retrieved_line_priority (st : PState) (line : String)
    (h0 : hasSub (pyStripWs line) "[INFO] retrieved:" = true)
    (h1 : hasSub (pyStripWs line) "[*] testing connection to the target URL" = false)
    (h2 : hasSub (pyStripWs line) "[*] starting at" = false)
    (h3 : hasSub (pyStripWs line) "[INFO] testing" = false)
    (h4 : hasSub (pyStripWs line) "[INFO] the back-end DBMS is" = false)
    (h5 : hasSub (pyStripWs line) "[INFO] banner:" = false)
    (h6 : hasSub (pyStripWs line) "identified the following injection point(s)" = false)
    (h7 : hasSub (pyStripWs line) "all tested parameters appear to be not injectable" = false)
    (h8 : hasSub (pyStripWs line) "[PAYLOAD]" = false)
    (h9 : hasSub (pyStripWs line) "[INFO] fetching" = false) :
    processLine st line =
      (if st.current_section == some "user_info" then
        { st with database_info :=
            { st.database_info with
                current_user := some (extractRetrieved (pyStripWs line)) } }
      else if st.current_section == some "version_info" then
        { st with database_info :=
            { st.database_info with
                version := some (extractRetrieved (pyStripWs line)) } }
      else { st with vulnerable := true }) := by
  have hblank : (pyStripWs line == "") = false := by
    cases hq : pyStripWs line == "" with
    | false => rfl
    | true =>
      have he : pyStripWs line = "" := by simpa using hq
      rw [he] at h0
      exact absurd h0 (by decide)
  have c3f : hasSub (pyStripWs line) "[INFO] testing URL" = false :=
    hasSub_false_mono _ _ _ (by decide) h3
  have c4f : hasSub (pyStripWs line) "[INFO] testing connection to the target URL" = false :=
    hasSub_false_mono _ _ _ (by decide) h3
  have c7f : hasSub (pyStripWs line)
      "[CRITICAL] sqlmap identified the following injection point(s):" = false :=
    hasSub_false_mono _ _ _ (by decide) h6
  have c8f : hasSub (pyStripWs line)
      "[CRITICAL] all tested parameters appear to be not injectable" = false :=
    hasSub_false_mono _ _ _ (by decide) h7
  have c9f : hasSub (pyStripWs line)
      "[INFO] sqlmap identified the following injection point(s):" = false :=
    hasSub_false_mono _ _ _ (by decide) h6
  have c11f : hasSub (pyStripWs line) "[INFO] testing for SQL injection on" = false :=
    hasSub_false_mono _ _ _ (by decide) h3
  have c13f : hasSub (pyStripWs line) "[INFO] fetching database names" = false :=
    hasSub_false_mono _ _ _ (by decide) h9
  have c14f : hasSub (pyStripWs line) "[INFO] fetching tables for database:" = false :=
    hasSub_false_mono _ _ _ (by decide) h9
  have c15f : hasSub (pyStripWs line) "[INFO] fetching columns for table" = false :=
    hasSub_false_mono _ _ _ (by decide) h9
  have c16f : hasSub (pyStripWs line) "[INFO] fetching current user" = false :=
    hasSub_false_mono _ _ _ (by decide) h9
  have c18f : hasSub (pyStripWs line) "[INFO] fetching database server version" = false :=
    hasSub_false_mono _ _ _ (by decide) h9
  simp only [processLine, hblank, h1, h2, h3, h4, h5, c3f, c4f, c7f, c8f, c9f, h8,
    c11f, c13f, c14f, c15f, c16f, c18f, h0, Bool.false_and, Bool.true_and,
    Bool.false_eq_true, if_false, if_true]
  by_cases hu : st.current_section == some "user_info"
  · simp only [hu, if_true]
  · simp only [hu, if_false, Bool.false_eq_true]
    by_cases hv : st.current_section == some "version_info"
    · simp only [hv, if_true]
    · simp only [hv, if_false, Bool.false_eq_true]
      cases st with
      | mk cs tg db vul summ tu vulns dbi =>
        cases vul <;> simp

/-- Witness for claim C4: a concrete retrieved line processed in the
user-info section stores the retrieved value as the current user. -/
theorem retrieved_line_priority_witness :
    processLine { initState with current_section := some "user_info" }
        "[INFO] retrieved: admin" =
      { initState with current_section := some "user_info",
                       database_info := { current_user := some "admin" } } := by
  rw [retrieved_line_priority _ _ (by decide) (by decide) (by decide) (by decide)
    (by decide) (by decide) (by decide) (by decide) (by decide) (by decide)]
  decide

/-- A line that strips to the empty string is skipped by the classifier. -/
theorem processLine_blank (st : PState) (l : String) (h : pyStripWs l = "") :
    processLine st l = st := by
  simp [processLine, h]

/-- Folding the classifier over a line list equals folding it over the list
with blank lines removed. -/
theorem foldl_processLine_filter (ls : List String) (st : PState) :
    ls.foldl processLine st =
      (ls.filter (fun l => !(pyStripWs l == ""))).foldl processLine st := by
  induction ls generalizing st with
  | nil => rfl
  | cons a as ih =>
    cases ha : pyStripWs a == "" with
    | true =>
      have ha' : pyStripWs a = "" := by simpa using ha
      simp only [List.foldl_cons, List.filter_cons, ha, Bool.not_true,
        processLine_blank st a ha']
      exact ih st
    | false =>
      simp only [List.foldl_cons, List.filter_cons, ha, Bool.not_false, if_pos rfl,
        List.foldl_cons]
      exact ih (processLine st a)

/-- Claim C10: two line sequences that agree after discarding blank
(whitespace-only) lines — in particular a sequence and the same sequence
with blank lines inserted anywhere — produce identical parsed fields:
target, dbms, vulnerability flag, vulnerability records, database info and
summary. Only the raw-output field can differ. -/
theorem blank_lines_do_not_affect_result (cmd ls1 ls2 : List String)
    (h : ls1.filter (fun l => !(pyStripWs l == "")) =
         ls2.filter (fun l => !(pyStripWs l == ""))) :
    (parse_output cmd ls1).target = (parse_output cmd ls2).target ∧
    (parse_output cmd ls1).dbms = (parse_output cmd ls2).dbms ∧
    (parse_output cmd ls1).vulnerable = (parse_output cmd ls2).vulnerable ∧
    (parse_output cmd ls1).vulnerabilities = (parse_output cmd ls2).vulnerabilities ∧
    (parse_output cmd ls1).database_info = (parse_output cmd ls2).database_info ∧
    (parse_output cmd ls1).summary = (parse_output cmd ls2).summary := by
  have hst : ls1.foldl processLine initState = ls2.foldl processLine initState := by
    rw [foldl_processLine_filter, h, ← foldl_processLine_filter]
  simp only [parse_output]
  rw [hst]
  exact ⟨rfl, rfl, rfl, rfl, rfl, rfl⟩

/-- Witness for claim C10: inserting an empty line and a whitespace-only
line around a retrieved line leaves every parsed field unchanged. -/
theorem blank_lines_do_not_affect_result_witness :
    (parse_output [] ["[INFO] retrieved: xyz"]).target =
      (parse_output [] ["", "[INFO] retrieved: xyz", "   "]).target ∧
    (parse_output [] ["[INFO] retrieved: xyz"]).dbms =
      (parse_output [] ["", "[INFO] retrieved: xyz", "   "]).dbms ∧
    (parse_output [] ["[INFO] retrieved: xyz"]).vulnerable =
      (parse_output [] ["", "[INFO] retrieved: xyz", "   "]).vulnerable ∧
    (parse_output [] ["[INFO] retrieved: xyz"]).vulnerabilities =
      (parse_output [] ["", "[INFO] retrieved: xyz", "   "]).vulnerabilities ∧
    (parse_output [] ["[INFO] retrieved: xyz"]).database_info =
      (parse_output [] ["", "[INFO] retrieved: xyz", "   "]).database_info ∧
    (parse_output [] ["[INFO] retrieved: xyz"]).summary =
      (parse_output [] ["", "[INFO] retrieved: xyz", "   "]).summary :=
  blank_lines_do_not_affect_result [] _ _ (by decide)

/-!
The quote-then-split round trip used by claim C8.
-/

/-- A string rebuilt from its own characters is itself. -/
theorem mk_data (x : String) : String.mk x.data = x := by
  cases x
  rfl

/-- The characters of an appended string. -/
theorem strData_append (a b : String) : (a ++ b).data = a.data ++ b.data := by
  cases a
  cases b
  rfl

/-- A string that is not empty has a non-empty character list. -/
theorem data_ne_nil (x : String) (h : (x == "") = false) : x.data ≠ [] := by
  intro hn
  have hx : x = "" := by
    cases x with
    | mk d => cases hn; rfl
  rw [hx] at h
  exact absurd h (by decide)

/-- A safe character is not whitespace. -/
theorem isSafeChar_not_ws (c : Char) (h : isSafeChar c = true) :
    c.isWhitespace = false := by
  cases hw : c.isWhitespace with
  | false => rfl
  | true =>
    simp only [Char.isWhitespace, Bool.or_eq_true, decide_eq_true_eq] at hw
    rcases hw with ((h1 | h1) | h1) | h1 <;> (subst h1; exact absurd h (by decide))

/-- A safe character differs from every unsafe character. -/
theorem isSafeChar_ne (c d : Char) (h : isSafeChar c = true)
    (hd : isSafeChar d = false) : (c == d) = false := by
  cases he : c == d with
  | false => rfl
  | true =>
    have hcd : c = d := by simpa using he
    subst hcd
    rw [h] at hd
    exact absurd hd (by simp)

/-- In word mode the lexer absorbs a run of safe characters into the token. -/
theorem shlexRun_wd_safe (cs : List Char) (h : cs.all isSafeChar = true) :
    ∀ tok q rest, shlexRun .wd tok q (cs ++ rest) = shlexRun .wd (tok ++ cs) q rest := by
  induction cs with
  | nil => intro tok q rest; simp
  | cons c cs ih =>
    intro tok q rest
    rw [List.all_cons, Bool.and_eq_true] at h
    obtain ⟨hc, hcs⟩ := h
    have hw := isSafeChar_not_ws c hc
    have hs := isSafeChar_ne c squote hc (by decide)
    have hd := isSafeChar_ne c dquote hc (by decide)
    have hb := isSafeChar_ne c bslash hc (by decide)
    show shlexRun .wd tok q (c :: (cs ++ rest)) = _
    simp only [shlexRun, hw, hs, hd, hb, Bool.false_eq_true, if_false]
    rw [ih hcs (tok ++ [c]) q rest]
    simp

/-- In single-quote mode the lexer consumes the quote-escaped rendering of
`cs` followed by the closing quote, appending `cs` to the token and ending
in word mode with the quoted flag set. -/
theorem shlexRun_sq_replace (cs : List Char) :
    ∀ tok q rest, shlexRun .sq tok q (pyReplaceQuote cs ++ (squote :: rest)) =
      shlexRun .wd (tok ++ cs) true rest := by
  induction cs with
  | nil =>
    intro tok q rest
    simp [pyReplaceQuote, shlexRun]
  | cons c cs ih =>
    intro tok q rest
    by_cases hc : c == squote
    · have hceq : c = squote := by simpa using hc
      subst hceq
      simp only [pyReplaceQuote, if_pos rfl, List.cons_append, List.append_assoc]
      simp only [shlexRun, (show (squote == squote) = true by decide),
        (show (dquote == squote) = false by decide),
        (show (squote == dquote) = false by decide),
        (show (dquote == dquote) = true by decide),
        (show (squote == bslash) = false by decide),
        (show squote.isWhitespace = false by decide),
        (show dquote.isWhitespace = false by decide),
        Bool.false_eq_true, if_false, if_true, List.append_eq, List.nil_append]
      rw [ih (tok ++ [squote]) true rest]
      simp
    · have hcf : (c == squote) = false := by simpa using hc
      simp only [pyReplaceQuote, hcf, Bool.false_eq_true, if_false,
        List.singleton_append, List.cons_append, List.nil_append]
      simp only [shlexRun, hcf, Bool.false_eq_true, if_false, List.nil_append]
      rw [ih (tok ++ [c]) true rest]
      simp

/-- Entering the lexer on a safe, non-empty quoted argument consumes it
into the token unquoted. -/
theorem shlexRun_entry_safe (x : String) (hne : (x == "") = false)
    (hsafe : x.data.all isSafeChar = true) (rest : List Char) :
    shlexRun .sp [] false ((shQuote x).data ++ rest) =
      shlexRun .wd x.data false rest := by
  have hq : shQuote x = x := by
    simp [shQuote, hne, hsafe]
  rw [hq]
  cases hx : x.data with
  | nil => exact absurd hx (data_ne_nil x hne)
  | cons c cs =>
    rw [hx] at hsafe
    rw [List.all_cons, Bool.and_eq_true] at hsafe
    obtain ⟨hc, hcs⟩ := hsafe
    have hw := isSafeChar_not_ws c hc
    have hs := isSafeChar_ne c squote hc (by decide)
    have hd := isSafeChar_ne c dquote hc (by decide)
    have hb := isSafeChar_ne c bslash hc (by decide)
    simp only [List.cons_append, shlexRun, hw, hs, hd, hb, Bool.false_eq_true, if_false,
      List.append_eq]
    rw [shlexRun_wd_safe cs hcs [c] false rest]
    simp

/-- Entering the lexer on a quoted (empty or unsafe) argument consumes it
into the token with the quoted flag set. -/
theorem shlexRun_entry_quoted (x : String)
    (h : (x == "") = true ∨ x.data.all isSafeChar = false) (rest : List Char) :
    shlexRun .sp [] false ((shQuote x).data ++ rest) =
      shlexRun .wd x.data true rest := by
  have hq : (shQuote x).data = squote :: (pyReplaceQuote x.data ++ [squote]) := by
    by_cases hxe : (x == "") = true
    · have hx : x = "" := by simpa using hxe
      subst hx
      rfl
    · have hxe' : (x == "") = false := by simpa using hxe
      rcases h with h | h
      · rw [hxe'] at h; exact absurd h (by simp)
      · simp [shQuote, hxe', h]
  rw [hq, List.cons_append]
  simp only [shlexRun, (show squote.isWhitespace = false by decide),
    (show (squote == squote) = true by decide), Bool.false_eq_true, if_false, if_true]
  rw [List.append_assoc, List.singleton_append]
  rw [shlexRun_sq_replace x.data [] false rest]
  simp

/-- Splitting the space-joined, shell-quoted rendering of any argument list
recovers exactly that list. -/
theorem shlexRun_join_quote (xs : List String) :
    shlexRun .sp [] false (pyJoinSpace (xs.map shQuote)).data = some xs := by
  induction xs with
  | nil => rfl
  | cons x xs ih =>
    cases xs with
    | nil =>
      show shlexRun .sp [] false (shQuote x).data = some [x]
      rw [← List.append_nil ((shQuote x).data)]
      by_cases hxe : (x == "") = true
      · rw [shlexRun_entry_quoted x (Or.inl hxe) []]
        simp [shlexRun, mk_data]
      · have hxe' : (x == "") = false := by simpa using hxe
        by_cases hsafe : x.data.all isSafeChar = true
        · rw [shlexRun_entry_safe x hxe' hsafe []]
          have hnn : x.data ≠ [] := data_ne_nil x hxe'
          simp only [shlexRun, List.isEmpty_eq_false.mpr hnn, Bool.false_and,
            Bool.false_eq_true, if_false, mk_data]
        · have hsafe' : x.data.all isSafeChar = false := by simpa using hsafe
          rw [shlexRun_entry_quoted x (Or.inr hsafe') []]
          simp [shlexRun, mk_data]
    | cons y ys =>
      show shlexRun .sp [] false
        ((shQuote x ++ " " ++ pyJoinSpace ((y :: ys).map shQuote))).data = some (x :: y :: ys)
      rw [strData_append, strData_append]
      rw [List.append_assoc]
      by_cases hxe : (x == "") = true
      · rw [shlexRun_entry_quoted x (Or.inl hxe) _]
        show shlexRun .wd x.data true
          (' ' :: (pyJoinSpace ((y :: ys).map shQuote)).data) = _
        simp only [shlexRun, (show (' ').isWhitespace = true by decide), if_true,
          Bool.or_true, emitTok, ih, mk_data]
      · have hxe' : (x == "") = false := by simpa using hxe
        have hnn : x.data ≠ [] := data_ne_nil x hxe'
        by_cases hsafe : x.data.all isSafeChar = true
        · rw [shlexRun_entry_safe x hxe' hsafe _]
          show shlexRun .wd x.data false
            (' ' :: (pyJoinSpace ((y :: ys).map shQuote)).data) = _
          simp only [shlexRun, (show (' ').isWhitespace = true by decide), if_true,
            List.isEmpty_eq_false.mpr hnn, Bool.not_false, Bool.true_or, emitTok, ih,
            mk_data]
        · have hsafe' : x.data.all isSafeChar = false := by simpa using hsafe
          rw [shlexRun_entry_quoted x (Or.inr hsafe') _]
          show shlexRun .wd x.data true
            (' ' :: (pyJoinSpace ((y :: ys).map shQuote)).data) = _
          simp only [shlexRun, (show (' ').isWhitespace = true by decide), if_true,
            Bool.or_true, emitTok, ih, mk_data]

/-- Claim C8: re-splitting the display string of `get_command_string` with
quote-aware shell tokenization yields exactly the argument vector of
`build_command`, in order, for every builder, target and options. -/
theorem display_string_roundtrip (cb : CommandBuilder) (t : Target) (o : Options) :
    shlexSplit (get_command_string cb t o) = some (build_command cb t o) := by
  unfold shlexSplit get_command_string
  exact shlexRun_join_quote (build_command cb t o)

/-- Witness for claim C2 (amended): a concrete target with both fields set,
a prefixed URL and an existing request file validates with no errors. -/
theorem validate_target_spec_witness :
    validate_target (fun _ => true)
      { url := some "http://demo.net/p?id=7", request_file := some "cap.txt" } = [] :=
  (validate_target_spec (fun _ => true) _).2 "http://demo.net/p?id=7" "cap.txt" rfl rfl
    (by decide) rfl
